import Mathlib

/-!
Verification of `drivers/leds/leds-spi-single-wire.c`, a WS2812B RGB LED
driver that emulates the single-wire LED protocol over SPI by oversampling
each logical bit as three wire bits (logical 0 ↦ `100`, logical 1 ↦ `110`).

The development shallowly embeds the driver: byte values are `Nat` (all
table entries and buffer bytes are below 256 by construction), buffers are
`List Nat`, and the two stateful entry points
(`ws2812b_rgb_led_brightness_set_blocking`, `spi_ws2812b_probe`) are pure
functions from their inputs (including the outcomes of the external
collaborators: allocation success, the SPI transport result, and the
per-channel intensities produced by the brightness-scaling helper) to an
explicit result record carrying the return code, the new buffer state and
the list of frames handed to the bus.
-/

set_option maxHeartbeats 1600000
set_option maxRecDepth 40000

namespace LedsSpiSingleWire

/-- Table `byte2encoding_h`, indexed by `(value >> 5) & 0x07` (bits 7..5). -/
def byte2encoding_h : List Nat :=
  [0x92, 0x93, 0x9a, 0x9b, 0xd2, 0xd3, 0xda, 0xdb]

/-- Table `byte2encoding_m`, indexed by `(value >> 3) & 0x03` (bits 4..3). -/
def byte2encoding_m : List Nat :=
  [0x49, 0x4d, 0x69, 0x6d]

/-- Table `byte2encoding_l`, indexed by `value & 0x07` (bits 2..0). -/
def byte2encoding_l : List Nat :=
  [0x24, 0x26, 0x34, 0x36, 0xa4, 0xa6, 0xb4, 0xb6]

/-- `struct ws2812b_encoding { u8 h, m, l; }` — one encoded channel,
three output bytes sent high, medium, low. -/
structure ws2812b_encoding where
  h : Nat
  m : Nat
  l : Nat
deriving DecidableEq, Repr

/-- `struct ws2812b_pixel { struct ws2812b_encoding r, g, b; }`.
C lays the fields out in declaration order: `r` at offset 0, `g` at
offset 3, `b` at offset 6; `sizeof` is 9. -/
structure ws2812b_pixel where
  r : ws2812b_encoding
  g : ws2812b_encoding
  b : ws2812b_encoding
deriving DecidableEq, Repr

/-- `struct spi_ws2812b_chipdef`. -/
structure spi_ws2812b_chipdef where
  chip_num : Nat
  led_ctrl_cmd_len : Nat
  led_num_channels : Nat
deriving DecidableEq, Repr

/-- `miwifi_ws2812b_spi_led`: 2 chips, 9 bytes per chip, 3 channels. -/
def miwifi_ws2812b_spi_led : spi_ws2812b_chipdef :=
  { chip_num := 2, led_num_channels := 3, led_ctrl_cmd_len := 9 }

/-- `ws2812b_set_encoded_pixel`: look the three masked bit groups of `val`
up in the three tables.  The C function writes through a pointer; here it
returns the encoding record.  `getD _ 0` only matters out of bounds, and
the masks keep every index in bounds (proved below). -/
def ws2812b_set_encoded_pixel (val : Nat) : ws2812b_encoding :=
  { h := byte2encoding_h.getD ((val >>> 5) &&& 0x07) 0
    m := byte2encoding_m.getD ((val >>> 3) &&& 0x03) 0
    l := byte2encoding_l.getD ((val >>> 0) &&& 0x07) 0 }

/-- `ws2812b_set_pixel_value`: encode the three channels into the pixel
record.  The C source assigns the `g` field first, then `r`, then `b`,
but assignment order does not affect the struct layout, which stays
`r`, `g`, `b` (declaration order). -/
def ws2812b_set_pixel_value (r g b : Nat) : ws2812b_pixel :=
  { g := ws2812b_set_encoded_pixel g
    r := ws2812b_set_encoded_pixel r
    b := ws2812b_set_encoded_pixel b }

/-- The three bytes of one encoding, in memory order `h`, `m`, `l`. -/
def encodingBytes (e : ws2812b_encoding) : List Nat :=
  [e.h, e.m, e.l]

/-- The nine bytes `memcpy` reads from a `struct ws2812b_pixel`: fields in
declaration order `r`, `g`, `b`, each contributing `h`, `m`, `l`. -/
def pixelBytes (p : ws2812b_pixel) : List Nat :=
  encodingBytes p.r ++ encodingBytes p.g ++ encodingBytes p.b

/-- The 24-bit wire stream of one encoded channel: byte `h` is transmitted
first (bits 23..16), then `m` (bits 15..8), then `l` (bits 7..0). -/
def encodedStream (e : ws2812b_encoding) : Nat :=
  e.h * 2 ^ 16 + e.m * 2 ^ 8 + e.l

/-- Modelled from the spec: `decode` reconstructs the logical bit pattern
from the three oversampled output bytes.  Logical bit `i` occupies stream
bits `3*i+2 .. 3*i` as `100` (for 0) or `110` (for 1), so the logical bit
is the middle bit, at stream position `3*i + 1`. -/
def decode (e : ws2812b_encoding) : Nat :=
  (List.range 8).foldl (fun acc i => acc + ((encodedStream e >>> (3 * i + 1)) &&& 1) * 2 ^ i) 0

/-- C1: encoding any 8-bit value with the three lookup tables and decoding
the resulting three oversampled bytes yields the value back — the
encode/decode round trip is the identity on all 256 inputs. -/
theorem C1_encode_decode_roundtrip :
    ∀ v : Fin 256, decode (ws2812b_set_encoded_pixel v.val) = v.val := by
  decide

/-- C8: the encoder emits exactly one byte per bit group (each of `h`,
`m`, `l` fits in one byte), and every aligned 3-bit group of the 24-bit
stream is the 1-pattern `110` (= 6) when the corresponding logical bit of
`v` is set and the 0-pattern `100` (= 4) when it is clear. -/
theorem C8_encode_groups :
    ∀ v : Fin 256,
      (ws2812b_set_encoded_pixel v.val).h < 256 ∧
      (ws2812b_set_encoded_pixel v.val).m < 256 ∧
      (ws2812b_set_encoded_pixel v.val).l < 256 ∧
      ∀ i : Fin 8,
        (encodedStream (ws2812b_set_encoded_pixel v.val) >>> (3 * i.val)) &&& 7 =
          (if Nat.testBit v.val i.val then 6 else 4) := by
  decide

/-- C10: the masked table indices are within bounds for every input (of
any size, not only 8-bit ones), so each lookup of
`ws2812b_set_encoded_pixel` is in range and encoding is total. -/
theorem C10_encode_indices_in_bounds :
    ∀ val : Nat,
      ((val >>> 5) &&& 0x07) < byte2encoding_h.length ∧
      ((val >>> 3) &&& 0x03) < byte2encoding_m.length ∧
      ((val >>> 0) &&& 0x07) < byte2encoding_l.length ∧
      (byte2encoding_h.get? ((val >>> 5) &&& 0x07)).isSome ∧
      (byte2encoding_m.get? ((val >>> 3) &&& 0x03)).isSome ∧
      (byte2encoding_l.get? ((val >>> 0) &&& 0x07)).isSome := by
  intro val
  have hh : (val >>> 5) &&& 0x07 < 8 :=
    Nat.lt_succ_of_le (Nat.and_le_right)
  have hm : (val >>> 3) &&& 0x03 < 4 :=
    Nat.lt_succ_of_le (Nat.and_le_right)
  have hl : val &&& 0x07 < 8 :=
    Nat.lt_succ_of_le (Nat.and_le_right)
  refine ⟨hh, hm, hl, ?_, ?_, ?_⟩
  · simp [List.get?_eq_getElem?,
      List.getElem?_eq_getElem (show (val >>> 5) &&& 0x07 < byte2encoding_h.length from hh)]
  · simp [List.get?_eq_getElem?,
      List.getElem?_eq_getElem (show (val >>> 3) &&& 0x03 < byte2encoding_m.length from hm)]
  · simp [List.get?_eq_getElem?,
      List.getElem?_eq_getElem (show val &&& 0x07 < byte2encoding_l.length from hl)]

/-- C2 fails on the code: with `r = 255`, `g = 0`, `b = 0` the nine bytes
copied out of the pixel struct start with `encode(255)` — the red triplet
`db 6d b6` — because the struct field order is `r`, `g`, `b`; they do not
start with the green triplet `92 49 24` as the claimed
`encode(g) ++ encode(r) ++ encode(b)` layout requires. -/
theorem C2_struct_layout_is_rgb :
    pixelBytes (ws2812b_set_pixel_value 255 0 0) =
      [0xdb, 0x6d, 0xb6, 0x92, 0x49, 0x24, 0x92, 0x49, 0x24] ∧
    pixelBytes (ws2812b_set_pixel_value 255 0 0) ≠
      encodingBytes (ws2812b_set_encoded_pixel 0) ++
        encodingBytes (ws2812b_set_encoded_pixel 255) ++
        encodingBytes (ws2812b_set_encoded_pixel 0) := by
  decide

/-- Semantics of `memcpy(dst + off, src, src.length)` on a flat byte
buffer: the bytes `off .. off + src.length - 1` of `dst` are replaced by
`src`.  Faithful to the C call whenever `off + src.length ≤ dst.length`
(out of bounds the C call is undefined behaviour). -/
def memcpyAt (dst : List Nat) (off : Nat) (src : List Nat) : List Nat :=
  dst.take off ++ (src ++ dst.drop (off + src.length))

/-- Result of one `ws2812b_rgb_led_brightness_set_blocking` call: the C
return value, the group command buffer afterwards, and the frames handed
to `spi_write` during the call (in order). -/
structure set_result where
  ret : Int
  buf : List Nat
  writes : List (List Nat)
deriving DecidableEq, Repr

/-- `ws2812b_rgb_led_brightness_set_blocking`, embedded as a pure state
transition.  `buf` is the command buffer of the group (`chip_cmd_buffer`);
`chip_id` identifies the calling LED, whose slot starts at
`led_ctrl_cmd_len * chip_id` (the C code reaches the buffer start via
`led->led_ctrl_cmd - led_ctrl_cmd_len * chip_id`).  `r`, `g`, `b` are the
per-channel intensities produced by the external
`led_mc_calc_color_components` collaborator; `allocOk` is the outcome of
the `kzalloc` for the frame and `spiRet` the value `spi_write` would
return.  The C flow: `kzalloc` a zeroed frame of `ctrl_cmd_len + 2` bytes
(on failure return `-ENOMEM = -12` before touching any state), encode the
pixel, `memcpy` it into the slot of the calling LED, `memcpy` the whole
group buffer into the frame at offset 1 (byte 0 and the final byte stay
0), then return the result of `spi_write`. -/
def ws2812b_rgb_led_brightness_set_blocking
    (cdef : spi_ws2812b_chipdef) (chip_id : Nat) (buf : List Nat)
    (r g b : Nat) (allocOk : Bool) (spiRet : Int) : set_result :=
  let ctrl_cmd_len := cdef.chip_num * cdef.led_ctrl_cmd_len
  if allocOk = false then
    { ret := -12, buf := buf, writes := [] }
  else
    let spix := ws2812b_set_pixel_value r g b
    let newBuf := memcpyAt buf (cdef.led_ctrl_cmd_len * chip_id) (pixelBytes spix)
    let frame := 0 :: (newBuf.take ctrl_cmd_len ++ [0])
    { ret := spiRet, buf := newBuf, writes := [frame] }

/-- One registered LED endpoint as built by the probe loop.  `mutex_id`
models lock identity: each iteration allocates a fresh
`struct spi_ws2812b_led` and runs `mutex_init(&led->mutex)` on the mutex
embedded in it, so distinct endpoints hold distinct mutex objects; the
allocation index is used as the identity. -/
structure led_endpoint where
  chip_id : Nat
  buf_offset : Nat
  mutex_id : Nat
deriving DecidableEq, Repr

/-- Result of `spi_ws2812b_probe`: the return code, whether the group
command buffer was allocated (and its size), and the endpoints
registered. -/
structure probe_result where
  ret : Int
  buffer_allocated : Bool
  buffer_len : Nat
  endpoints : List led_endpoint
deriving DecidableEq, Repr

/-- `spi_ws2812b_probe`, embedded over the discovered child count.  The C
code returns `-ENODEV = -19` when `chip_count == 0 || chip_count !=
cdef->chip_num`, before `devm_kzalloc` of the command buffer and before
the registration loop; otherwise it allocates the buffer of
`led_ctrl_cmd_len * chip_num` bytes and registers one endpoint per child,
giving endpoint `i` the buffer region starting at `led_ctrl_cmd_len * i`
and its own freshly initialised mutex. -/
def spi_ws2812b_probe (cdef : spi_ws2812b_chipdef) (chip_count : Nat) : probe_result :=
  if chip_count = 0 ∨ chip_count ≠ cdef.chip_num then
    { ret := -19, buffer_allocated := false, buffer_len := 0, endpoints := [] }
  else
    { ret := 0
      buffer_allocated := true
      buffer_len := cdef.led_ctrl_cmd_len * cdef.chip_num
      endpoints := (List.range chip_count).map fun i =>
        { chip_id := i, buf_offset := cdef.led_ctrl_cmd_len * i, mutex_id := i } }

theorem memcpyAt_length {dst src : List Nat} {off : Nat}
    (h : off + src.length ≤ dst.length) :
    (memcpyAt dst off src).length = dst.length := by
  simp only [memcpyAt, List.length_append, List.length_take, List.length_drop]
  omega

theorem memcpyAt_getElem?_left {dst src : List Nat} {off k : Nat}
    (hk : k < off) (hoff : off ≤ dst.length) :
    (memcpyAt dst off src)[k]? = dst[k]? := by
  rw [memcpyAt, List.getElem?_append_left, List.getElem?_take_of_lt hk]
  simp only [List.length_take]
  omega

theorem memcpyAt_getElem?_mid {dst src : List Nat} {off k : Nat}
    (hk : k < src.length) (hoff : off ≤ dst.length) :
    (memcpyAt dst off src)[off + k]? = src[k]? := by
  rw [memcpyAt, List.getElem?_append_right, List.getElem?_append_left]
  · congr 1
    simp only [List.length_take]
    omega
  · simpa only [List.length_take, Nat.min_eq_left hoff, Nat.add_sub_cancel_left] using hk
  · simp only [List.length_take]
    omega

theorem memcpyAt_getElem?_right {dst src : List Nat} {off k : Nat}
    (hk : off + src.length ≤ k) (hoff : off ≤ dst.length) :
    (memcpyAt dst off src)[k]? = dst[k]? := by
  rw [memcpyAt, List.getElem?_append_right, List.getElem?_append_right,
    List.getElem?_drop]
  · congr 1
    simp only [List.length_take]
    omega
  · simp only [List.length_take]
    omega
  · simp only [List.length_take]
    omega

theorem set_blocking_alloc_ok (cdef : spi_ws2812b_chipdef) (chip_id : Nat)
    (buf : List Nat) (r g b : Nat) (spiRet : Int) :
    ws2812b_rgb_led_brightness_set_blocking cdef chip_id buf r g b true spiRet =
      { ret := spiRet
        buf := memcpyAt buf (cdef.led_ctrl_cmd_len * chip_id)
                 (pixelBytes (ws2812b_set_pixel_value r g b))
        writes := [0 :: ((memcpyAt buf (cdef.led_ctrl_cmd_len * chip_id)
                 (pixelBytes (ws2812b_set_pixel_value r g b))).take
                 (cdef.chip_num * cdef.led_ctrl_cmd_len) ++ [0])] } := rfl

/-- C3: on the successful-allocation path the single frame handed to the
bus is byte 0 = 0, then the entire group command buffer as it stands
after the slot update, then a trailing 0; its length is
`chip_num * led_ctrl_cmd_len + 2`. -/
theorem C3_frame_assembly
    (cdef : spi_ws2812b_chipdef) (chip_id : Nat) (buf : List Nat)
    (r g b : Nat) (spiRet : Int)
    (hlen : buf.length = cdef.chip_num * cdef.led_ctrl_cmd_len)
    (hin : cdef.led_ctrl_cmd_len * chip_id + 9 ≤ buf.length) :
    (ws2812b_rgb_led_brightness_set_blocking cdef chip_id buf r g b true spiRet).writes =
      [0 :: ((ws2812b_rgb_led_brightness_set_blocking cdef chip_id buf r g b true spiRet).buf ++ [0])] ∧
    (0 :: ((ws2812b_rgb_led_brightness_set_blocking cdef chip_id buf r g b true spiRet).buf ++ [0])).length =
      cdef.chip_num * cdef.led_ctrl_cmd_len + 2 ∧
    (0 :: ((ws2812b_rgb_led_brightness_set_blocking cdef chip_id buf r g b true spiRet).buf ++ [0])).head? =
      some 0 ∧
    (0 :: ((ws2812b_rgb_led_brightness_set_blocking cdef chip_id buf r g b true spiRet).buf ++ [0])).getLast? =
      some 0 := by
  have hpix : (pixelBytes (ws2812b_set_pixel_value r g b)).length = 9 := rfl
  have hnew : (memcpyAt buf (cdef.led_ctrl_cmd_len * chip_id)
      (pixelBytes (ws2812b_set_pixel_value r g b))).length = buf.length :=
    memcpyAt_length (by rw [hpix]; exact hin)
  have htake : (memcpyAt buf (cdef.led_ctrl_cmd_len * chip_id)
        (pixelBytes (ws2812b_set_pixel_value r g b))).take
        (cdef.chip_num * cdef.led_ctrl_cmd_len) =
      memcpyAt buf (cdef.led_ctrl_cmd_len * chip_id)
        (pixelBytes (ws2812b_set_pixel_value r g b)) :=
    List.take_of_length_le (by rw [hnew, hlen])
  rw [set_blocking_alloc_ok]
  refine ⟨?_, ?_, ?_, ?_⟩
  · simp only [htake]
  · simp only [List.length_cons, List.length_append, List.length_nil, hnew, hlen]
  · rfl
  · show ((0 :: (memcpyAt buf (cdef.led_ctrl_cmd_len * chip_id)
      (pixelBytes (ws2812b_set_pixel_value r g b)) ++ [0]))).getLast? = some 0
    rw [← List.cons_append]
    exact List.getLast?_concat _

/-- Witness for C3 at the miwifi chipdef: chip 0 of a 2-chip, 9-bytes-per-chip
group with an 18-byte zero buffer. -/
theorem C3_frame_assembly_witness :
    ((List.replicate 18 0).length =
        miwifi_ws2812b_spi_led.chip_num * miwifi_ws2812b_spi_led.led_ctrl_cmd_len ∧
      miwifi_ws2812b_spi_led.led_ctrl_cmd_len * 0 + 9 ≤ (List.replicate 18 0).length) ∧
    ((ws2812b_rgb_led_brightness_set_blocking miwifi_ws2812b_spi_led 0
        (List.replicate 18 0) 255 0 0 true 0).writes =
      [0 :: ((ws2812b_rgb_led_brightness_set_blocking miwifi_ws2812b_spi_led 0
        (List.replicate 18 0) 255 0 0 true 0).buf ++ [0])] ∧
    (0 :: ((ws2812b_rgb_led_brightness_set_blocking miwifi_ws2812b_spi_led 0
        (List.replicate 18 0) 255 0 0 true 0).buf ++ [0])).length =
      miwifi_ws2812b_spi_led.chip_num * miwifi_ws2812b_spi_led.led_ctrl_cmd_len + 2 ∧
    (0 :: ((ws2812b_rgb_led_brightness_set_blocking miwifi_ws2812b_spi_led 0
        (List.replicate 18 0) 255 0 0 true 0).buf ++ [0])).head? = some 0 ∧
    (0 :: ((ws2812b_rgb_led_brightness_set_blocking miwifi_ws2812b_spi_led 0
        (List.replicate 18 0) 255 0 0 true 0).buf ++ [0])).getLast? = some 0) :=
  ⟨⟨by decide, by decide⟩,
   C3_frame_assembly miwifi_ws2812b_spi_led 0 (List.replicate 18 0) 255 0 0 0
     (by decide) (by decide)⟩

/-- C9: a call on the LED with slot `chip_id` leaves the buffer length
unchanged and every byte outside that 9-byte slot unchanged. -/
theorem C9_only_own_slot_written
    (cdef : spi_ws2812b_chipdef) (chip_id : Nat) (buf : List Nat)
    (r g b : Nat) (spiRet : Int)
    (hin : cdef.led_ctrl_cmd_len * chip_id + 9 ≤ buf.length) :
    (ws2812b_rgb_led_brightness_set_blocking cdef chip_id buf r g b true spiRet).buf.length =
      buf.length ∧
    ∀ k : Nat,
      (k < cdef.led_ctrl_cmd_len * chip_id ∨ cdef.led_ctrl_cmd_len * chip_id + 9 ≤ k) →
      (ws2812b_rgb_led_brightness_set_blocking cdef chip_id buf r g b true spiRet).buf[k]? =
        buf[k]? := by
  have hpix : (pixelBytes (ws2812b_set_pixel_value r g b)).length = 9 := rfl
  have hoff : cdef.led_ctrl_cmd_len * chip_id ≤ buf.length := by omega
  rw [set_blocking_alloc_ok]
  constructor
  · exact memcpyAt_length (by rw [hpix]; exact hin)
  · intro k hk
    rcases hk with hk | hk
    · exact memcpyAt_getElem?_left hk hoff
    · exact memcpyAt_getElem?_right (by rw [hpix]; exact hk) hoff

/-- Witness for C9: chip 1 of the miwifi group, 18-byte zero buffer. -/
theorem C9_only_own_slot_written_witness :
    (miwifi_ws2812b_spi_led.led_ctrl_cmd_len * 1 + 9 ≤ (List.replicate 18 0).length) ∧
    ((ws2812b_rgb_led_brightness_set_blocking miwifi_ws2812b_spi_led 1
        (List.replicate 18 0) 7 8 9 true 0).buf.length = (List.replicate 18 0).length ∧
    ∀ k : Nat,
      (k < miwifi_ws2812b_spi_led.led_ctrl_cmd_len * 1 ∨
        miwifi_ws2812b_spi_led.led_ctrl_cmd_len * 1 + 9 ≤ k) →
      (ws2812b_rgb_led_brightness_set_blocking miwifi_ws2812b_spi_led 1
        (List.replicate 18 0) 7 8 9 true 0).buf[k]? = (List.replicate 18 0)[k]?) :=
  ⟨by decide,
   C9_only_own_slot_written miwifi_ws2812b_spi_led 1 (List.replicate 18 0) 7 8 9 0
     (by decide)⟩

/-- C5: the SPI return value (in particular a negative transport error)
is handed back to the caller unchanged; the slot of the calling LED keeps
the freshly encoded pixel (no rollback); and a later successful call on a
different LED of the group (here: any slot whose 9-byte region is
disjoint) puts those very bytes on the bus, at frame offset
`1 + led_ctrl_cmd_len * chip_id`. -/
theorem C5_transport_error_no_rollback
    (cdef : spi_ws2812b_chipdef) (chip_id chip_id2 : Nat) (buf : List Nat)
    (r g b r2 g2 b2 : Nat) (spiRet : Int)
    (hlen : buf.length = cdef.chip_num * cdef.led_ctrl_cmd_len)
    (hin : cdef.led_ctrl_cmd_len * chip_id + 9 ≤ buf.length)
    (hin2 : cdef.led_ctrl_cmd_len * chip_id2 + 9 ≤ buf.length)
    (hdisj : cdef.led_ctrl_cmd_len * chip_id2 + 9 ≤ cdef.led_ctrl_cmd_len * chip_id ∨
      cdef.led_ctrl_cmd_len * chip_id + 9 ≤ cdef.led_ctrl_cmd_len * chip_id2) :
    (ws2812b_rgb_led_brightness_set_blocking cdef chip_id buf r g b true spiRet).ret = spiRet ∧
    (∀ k : Nat, k < 9 →
      (ws2812b_rgb_led_brightness_set_blocking cdef chip_id buf r g b true
          spiRet).buf[cdef.led_ctrl_cmd_len * chip_id + k]? =
        (pixelBytes (ws2812b_set_pixel_value r g b))[k]?) ∧
    (∀ k : Nat, k < 9 →
      ((ws2812b_rgb_led_brightness_set_blocking cdef chip_id2
          (ws2812b_rgb_led_brightness_set_blocking cdef chip_id buf r g b true spiRet).buf
          r2 g2 b2 true 0).writes.headD
          [])[1 + (cdef.led_ctrl_cmd_len * chip_id + k)]? =
        (pixelBytes (ws2812b_set_pixel_value r g b))[k]?) := by
  have hpix1 : (pixelBytes (ws2812b_set_pixel_value r g b)).length = 9 := rfl
  have hpix2 : (pixelBytes (ws2812b_set_pixel_value r2 g2 b2)).length = 9 := rfl
  have hoff : cdef.led_ctrl_cmd_len * chip_id ≤ buf.length := by omega
  have hoff2 : cdef.led_ctrl_cmd_len * chip_id2 ≤ buf.length := by omega
  have hb1 : (memcpyAt buf (cdef.led_ctrl_cmd_len * chip_id)
      (pixelBytes (ws2812b_set_pixel_value r g b))).length = buf.length :=
    memcpyAt_length (by rw [hpix1]; exact hin)
  have hb2 : (memcpyAt (memcpyAt buf (cdef.led_ctrl_cmd_len * chip_id)
        (pixelBytes (ws2812b_set_pixel_value r g b)))
      (cdef.led_ctrl_cmd_len * chip_id2)
      (pixelBytes (ws2812b_set_pixel_value r2 g2 b2))).length = buf.length := by
    rw [memcpyAt_length (by rw [hpix2, hb1]; exact hin2)]
    exact hb1
  have hslot : ∀ k : Nat, k < 9 →
      (memcpyAt buf (cdef.led_ctrl_cmd_len * chip_id)
        (pixelBytes (ws2812b_set_pixel_value r g b)))[cdef.led_ctrl_cmd_len * chip_id + k]? =
        (pixelBytes (ws2812b_set_pixel_value r g b))[k]? := by
    intro k hk
    exact memcpyAt_getElem?_mid (by rw [hpix1]; exact hk) hoff
  refine ⟨rfl, ?_, ?_⟩
  · intro k hk
    rw [set_blocking_alloc_ok]
    exact hslot k hk
  · intro k hk
    rw [set_blocking_alloc_ok, set_blocking_alloc_ok]
    have htake : (memcpyAt (memcpyAt buf (cdef.led_ctrl_cmd_len * chip_id)
          (pixelBytes (ws2812b_set_pixel_value r g b)))
        (cdef.led_ctrl_cmd_len * chip_id2)
        (pixelBytes (ws2812b_set_pixel_value r2 g2 b2))).take
        (cdef.chip_num * cdef.led_ctrl_cmd_len) =
        memcpyAt (memcpyAt buf (cdef.led_ctrl_cmd_len * chip_id)
          (pixelBytes (ws2812b_set_pixel_value r g b)))
        (cdef.led_ctrl_cmd_len * chip_id2)
        (pixelBytes (ws2812b_set_pixel_value r2 g2 b2)) :=
      List.take_of_length_le (by rw [hb2, hlen])
    show (0 :: ((memcpyAt (memcpyAt buf (cdef.led_ctrl_cmd_len * chip_id)
          (pixelBytes (ws2812b_set_pixel_value r g b)))
        (cdef.led_ctrl_cmd_len * chip_id2)
        (pixelBytes (ws2812b_set_pixel_value r2 g2 b2))).take
        (cdef.chip_num * cdef.led_ctrl_cmd_len) ++
        [0]))[1 + (cdef.led_ctrl_cmd_len * chip_id + k)]? =
      (pixelBytes (ws2812b_set_pixel_value r g b))[k]?
    rw [htake, Nat.add_comm 1 (cdef.led_ctrl_cmd_len * chip_id + k),
      List.getElem?_cons_succ, List.getElem?_append_left (by rw [hb2]; omega)]
    rcases hdisj with hd | hd
    · rw [memcpyAt_getElem?_right (by rw [hpix2]; omega) (by rw [hb1]; exact hoff2)]
      exact hslot k hk
    · rw [memcpyAt_getElem?_left (by omega) (by rw [hb1]; exact hoff2)]
      exact hslot k hk

/-- Witness for C5: chips 0 and 1 of the miwifi group, 18-byte zero
buffer, SPI transport error `-5` on the first call. -/
theorem C5_transport_error_no_rollback_witness :
    ((List.replicate 18 0).length =
        miwifi_ws2812b_spi_led.chip_num * miwifi_ws2812b_spi_led.led_ctrl_cmd_len ∧
      miwifi_ws2812b_spi_led.led_ctrl_cmd_len * 0 + 9 ≤ (List.replicate 18 0).length ∧
      miwifi_ws2812b_spi_led.led_ctrl_cmd_len * 1 + 9 ≤ (List.replicate 18 0).length ∧
      miwifi_ws2812b_spi_led.led_ctrl_cmd_len * 0 + 9 ≤
        miwifi_ws2812b_spi_led.led_ctrl_cmd_len * 1) ∧
    ((ws2812b_rgb_led_brightness_set_blocking miwifi_ws2812b_spi_led 0
        (List.replicate 18 0) 255 0 0 true (-5)).ret = -5 ∧
    (∀ k : Nat, k < 9 →
      (ws2812b_rgb_led_brightness_set_blocking miwifi_ws2812b_spi_led 0
          (List.replicate 18 0) 255 0 0 true
          (-5)).buf[miwifi_ws2812b_spi_led.led_ctrl_cmd_len * 0 + k]? =
        (pixelBytes (ws2812b_set_pixel_value 255 0 0))[k]?) ∧
    (∀ k : Nat, k < 9 →
      ((ws2812b_rgb_led_brightness_set_blocking miwifi_ws2812b_spi_led 1
          (ws2812b_rgb_led_brightness_set_blocking miwifi_ws2812b_spi_led 0
            (List.replicate 18 0) 255 0 0 true (-5)).buf
          0 0 255 true 0).writes.headD
          [])[1 + (miwifi_ws2812b_spi_led.led_ctrl_cmd_len * 0 + k)]? =
        (pixelBytes (ws2812b_set_pixel_value 255 0 0))[k]?)) :=
  ⟨⟨by decide, by decide, by decide, by decide⟩,
   C5_transport_error_no_rollback miwifi_ws2812b_spi_led 0 1 (List.replicate 18 0)
     255 0 0 0 0 255 (-5) (by decide) (by decide) (by decide) (Or.inr (by decide))⟩

/-- C4: when frame allocation fails, the call returns `-ENOMEM = -12`,
the group command buffer is untouched (the `kzalloc` happens before any
mutation), and no bus write is issued. -/
theorem C4_alloc_failure_no_mutation
    (cdef : spi_ws2812b_chipdef) (chip_id : Nat) (buf : List Nat)
    (r g b : Nat) (spiRet : Int) :
    (ws2812b_rgb_led_brightness_set_blocking cdef chip_id buf r g b false spiRet).ret = -12 ∧
    (ws2812b_rgb_led_brightness_set_blocking cdef chip_id buf r g b false spiRet).buf = buf ∧
    (ws2812b_rgb_led_brightness_set_blocking cdef chip_id buf r g b false spiRet).writes = [] := by
  refine ⟨rfl, rfl, rfl⟩

/-- C7: when the discovered child count is zero or differs from the
configured chip count, probing fails with `-ENODEV = -19` before the
command buffer is allocated and before any endpoint is registered. -/
theorem C7_topology_mismatch_rejected
    (cdef : spi_ws2812b_chipdef) (chip_count : Nat)
    (h : chip_count = 0 ∨ chip_count ≠ cdef.chip_num) :
    (spi_ws2812b_probe cdef chip_count).ret = -19 ∧
    (spi_ws2812b_probe cdef chip_count).buffer_allocated = false ∧
    (spi_ws2812b_probe cdef chip_count).endpoints = [] := by
  simp [spi_ws2812b_probe, if_pos h]

/-- Witness for C7 at the scenario from the spec: 1 endpoint discovered
while the configured chip count is 2. -/
theorem C7_topology_mismatch_rejected_witness :
    (1 = 0 ∨ 1 ≠ miwifi_ws2812b_spi_led.chip_num) ∧
    ((spi_ws2812b_probe miwifi_ws2812b_spi_led 1).ret = -19 ∧
     (spi_ws2812b_probe miwifi_ws2812b_spi_led 1).buffer_allocated = false ∧
     (spi_ws2812b_probe miwifi_ws2812b_spi_led 1).endpoints = []) :=
  ⟨Or.inr (by decide),
   C7_topology_mismatch_rejected miwifi_ws2812b_spi_led 1 (Or.inr (by decide))⟩

/-- C6 fails on the code: the probe loop runs `mutex_init(&led->mutex)`
once per LED endpoint, so the two endpoints of the 2-chip group hold two
distinct mutexes — there is no single lock shared by every LED of the
group, contrary to the claim. -/
theorem C6_each_endpoint_has_own_mutex :
    (spi_ws2812b_probe miwifi_ws2812b_spi_led 2).endpoints.length = 2 ∧
    ((spi_ws2812b_probe miwifi_ws2812b_spi_led 2).endpoints.map led_endpoint.mutex_id).Nodup := by
  decide

end LedsSpiSingleWire
